import Mathlib

/-!
Verification of the plugin_loader library (facontidavide/PluginLoader).

The development shallowly embeds the registry, loader, multi-loader and OS-shim
logic of the C++ sources:

* `registerPlugin`, `createInstance`, `getAvailableClasses` embed the template
  functions of include/plugin_loader/plugin_loader_core.hpp;
* `PluginLoaderState`, `loadLibrary`, `unloadLibraryInternal`,
  `pluginLoaderDestructor`, `onPluginDeletion`, `createRawInstance` embed
  src/plugin_loader.cpp and include/plugin_loader/plugin_loader.hpp;
* the multi-loader definitions embed src/multi_library_plugin_loader.cpp and
  include/plugin_loader/multi_library_plugin_loader.hpp (its loader map is a
  std::map keyed by library path, modelled as a sorted association list);
* `SharedLibrary.load` embeds src/shared_library_UNIX.cpp.

Definitions whose C++ source file is not part of the snapshot (meta_object.hpp,
plugin_loader_core.cpp) are modelled from the specification and carry a
`Modelled from the spec:` doc comment.

std::map<std::string, V> is modelled as an association list kept sorted by key
(`mapInsert` keeps the sorted order, `mapFind` retrieves the unique binding).
-/

namespace PluginLoaderModel

/-- Identity of a `PluginLoader *`; distinct live loader objects have distinct ids. -/
abbrev LoaderId := Nat

/-- Lexicographic comparison of character lists, the order std::string's
operator< induces on library paths and class names. -/
def charListLt : List Char → List Char → Bool
  | [], [] => false
  | [], _ :: _ => true
  | _ :: _, [] => false
  | a :: as, b :: bs => if a < b then true else if b < a then false else charListLt as bs

/-- Lexicographic order on strings (std::string operator<). -/
def strLt (a b : String) : Bool := charListLt a.toList b.toList

/-- Lookup in the model of std::map<std::string, V>: return the binding of key
`k`, if any. -/
def mapFind {V : Type} (k : String) : List (String × V) → Option V
  | [] => none
  | (k2, v) :: rest => if k2 = k then some v else mapFind k rest

/-- Insertion in the model of std::map<std::string, V>: `m[k] = v` keeps the
list sorted by key and overwrites an existing binding of `k`. -/
def mapInsert {V : Type} (k : String) (v : V) : List (String × V) → List (String × V)
  | [] => [(k, v)]
  | (k2, v2) :: rest =>
    if strLt k k2 then (k, v) :: (k2, v2) :: rest
    else if k = k2 then (k, v) :: rest
    else (k2, v2) :: mapInsert k v rest

/-- Erasure in the model of std::map<std::string, V>: remove the binding of `k`. -/
def mapErase {V : Type} (k : String) : List (String × V) → List (String × V)
  | [] => []
  | (k2, v) :: rest => if k2 = k then rest else (k2, v) :: mapErase k rest

/-- All keys of the association list are strictly greater than `k`. -/
def allKeysGt {V : Type} (k : String) : List (String × V) → Bool
  | [] => true
  | (k2, _) :: rest => strLt k k2 && allKeysGt k rest

/-- Well-formedness of the std::map model: keys strictly sorted (hence unique).
Every map reachable through `mapInsert`/`mapErase` from the empty map satisfies it. -/
def mapWFb {V : Type} : List (String × V) → Bool
  | [] => true
  | (k, _) :: rest => allKeysGt k rest && mapWFb rest

/-- Modelled from the spec: meta_object.hpp is not under src/. Per §3 "Factory",
a factory owns the derived-type name, the base name, the set of owning loaders
(the "no owner" attribution of a library mapped outside any loader is recorded
as `none`, mirroring the null `PluginLoader *` the source stores), and the path
of the contributing library. -/
structure AbstractMetaObjectBase where
  class_name : String
  base_class_name : String
  owners : List (Option LoaderId)
  associated_library_path : String
deriving Repr, DecidableEq

/-- Modelled from the spec: meta_object.hpp is not under src/. `isOwnedBy`
answers whether the given loader pointer is among the factory's owners. -/
def AbstractMetaObjectBase.isOwnedBy (f : AbstractMetaObjectBase)
    (loader : Option LoaderId) : Bool :=
  f.owners.contains loader

/-- The process-wide registry singletons of plugin_loader_core.hpp:
the Base-to-FactoryMap map, the current load context (library name and active
loader) and the non-pure-library flag. `loaded_libraries` models the global
LibraryVector as a map from path to open count. -/
structure GlobalState where
  factories : List (String × List (String × AbstractMetaObjectBase))
  currently_loading_library : String
  currently_active_loader : Option LoaderId
  non_pure_opened : Bool
  loaded_libraries : List (String × Nat)
deriving Repr, DecidableEq

/-- The freshly started process: empty registry, no load context, flag unset. -/
def GlobalState.initial : GlobalState :=
  { factories := [], currently_loading_library := "",
    currently_active_loader := none, non_pure_opened := false,
    loaded_libraries := [] }

/-- Embedding of `impl::registerPlugin` (plugin_loader_core.hpp, lines 174-234):
when no loader is currently active the non-pure flag is set; a factory owned by
the current context is created and stored under `factoryMap[class_name]`,
overwriting (and warning about) an existing entry. The returned Bool records
whether the collision warning was emitted. -/
def registerPlugin (g : GlobalState) (class_name base_class_name : String) :
    GlobalState × Bool :=
  let g1 := if g.currently_active_loader = none then
    { g with non_pure_opened := true } else g
  let new_factory : AbstractMetaObjectBase :=
    { class_name := class_name, base_class_name := base_class_name,
      owners := [g1.currently_active_loader],
      associated_library_path := g1.currently_loading_library }
  let factoryMap := (mapFind base_class_name g1.factories).getD []
  let collision := (mapFind class_name factoryMap).isSome
  let factories2 :=
    mapInsert base_class_name (mapInsert class_name new_factory factoryMap) g1.factories
  ({ g1 with factories := factories2 }, collision)

/-- Lookup of the factory for (base, derived) in the global map, as done at the
top of `impl::createInstance`. -/
def findFactory (g : GlobalState) (base derived_class_name : String) :
    Option AbstractMetaObjectBase :=
  mapFind derived_class_name ((mapFind base g.factories).getD [])

/-- Result of `impl::createInstance`: either an object was constructed (with
`advisory = true` when the no-owner advisory was logged) or
CreateClassException was thrown. -/
inductive CreateResult
  | created (advisory : Bool)
  | createClassException
deriving Repr, DecidableEq

/-- Embedding of `impl::createInstance` (plugin_loader_core.hpp, lines 242-287):
look the factory up; construct if it is owned by the requesting loader;
otherwise construct with an advisory if it is owned by the null loader;
otherwise throw CreateClassException. -/
def createInstance (g : GlobalState) (base derived_class_name : String)
    (loader : Option LoaderId) : CreateResult :=
  match findFactory g base derived_class_name with
  | none => CreateResult.createClassException
  | some factory =>
    if factory.isOwnedBy loader then CreateResult.created false
    else if factory.isOwnedBy none then CreateResult.created true
    else CreateResult.createClassException

/-- Loop body of `impl::getAvailableClasses` (plugin_loader_core.hpp, lines
294-316): one pass over the factory map collecting the names owned by the
loader and, separately, the names owned by nobody. -/
def getAvailableClassesAux (loader : Option LoaderId) :
    List (String × AbstractMetaObjectBase) → List String × List String
  | [] => ([], [])
  | (name, factory) :: rest =>
    let acc := getAvailableClassesAux loader rest
    if factory.isOwnedBy loader then (name :: acc.1, acc.2)
    else if factory.isOwnedBy none then (acc.1, name :: acc.2)
    else acc

/-- Embedding of `impl::getAvailableClasses`: the loader-owned names followed by
the ownerless names. -/
def getAvailableClasses (g : GlobalState) (base : String)
    (loader : Option LoaderId) : List String :=
  let p := getAvailableClassesAux loader ((mapFind base g.factories).getD [])
  p.1 ++ p.2

/-- The per-loader state of the PluginLoader class
(include/plugin_loader/plugin_loader.hpp, lines 303-310). The counts are C++
ints; the source manipulates them without overflow concerns, so they are
modelled as `Int`. -/
structure PluginLoaderState where
  ondemand_load_unload : Bool
  library_path : String
  load_ref_count : Int
  plugin_ref_count : Int
deriving Repr, DecidableEq

/-- Member initialization of the PluginLoader constructor
(src/plugin_loader.cpp, lines 45-50): both counts start at zero. -/
def initialLoader (library_path : String) (ondemand_load_unload : Bool) :
    PluginLoaderState :=
  { ondemand_load_unload := ondemand_load_unload, library_path := library_path,
    load_ref_count := 0, plugin_ref_count := 0 }

/-- Embedding of `PluginLoader::loadLibrary` (src/plugin_loader.cpp, lines
78-83): increment the local load reference count (the registry-side
`impl::loadLibrary` call affects only the global state). -/
def loadLibrary (s : PluginLoaderState) : PluginLoaderState :=
  { s with load_ref_count := s.load_ref_count + 1 }

/-- Outcome of one `unloadLibraryInternal` call: the loader state afterwards,
the returned count, and whether `impl::unloadLibrary` ran (i.e. the loader was
unbound from the library). -/
structure UnloadOutcome where
  state : PluginLoaderState
  returned : Int
  unbound : Bool
deriving Repr, DecidableEq

/-- Embedding of `PluginLoader::unloadLibraryInternal` (src/plugin_loader.cpp,
lines 90-114): refuse while plugin instances are outstanding; otherwise
decrement the count, unbinding exactly when it reaches zero and clamping a
negative count to zero. -/
def unloadLibraryInternal (s : PluginLoaderState) : UnloadOutcome :=
  if s.plugin_ref_count > 0 then
    { state := s, returned := s.load_ref_count, unbound := false }
  else
    let c := s.load_ref_count - 1
    if c = 0 then
      { state := { s with load_ref_count := c }, returned := c, unbound := true }
    else if c < 0 then
      { state := { s with load_ref_count := 0 }, returned := 0, unbound := false }
    else
      { state := { s with load_ref_count := c }, returned := c, unbound := false }

/-- Embedding of `PluginLoader::~PluginLoader` (src/plugin_loader.cpp, lines
60-66): the destructor body performs a single `unloadLibrary()` call (the
source carries a TODO asking whether it should loop). -/
def pluginLoaderDestructor (s : PluginLoaderState) : UnloadOutcome :=
  unloadLibraryInternal s

/-- Embedding of `PluginLoader::onPluginDeletion`
(include/plugin_loader/plugin_loader.hpp, lines 217-242): the deleter installed
on managed instances. A null object pointer returns immediately; otherwise the
outstanding-instance count is decremented and, when it reaches zero in
on-demand mode with no unmanaged instance ever created, the library is
unloaded. The returned Bool records whether an unbind was triggered. -/
def onPluginDeletion (s : PluginLoaderState) (obj : Option Unit)
    (has_unmananged_instance_been_created : Bool) : PluginLoaderState × Bool :=
  match obj with
  | none => (s, false)
  | some _ =>
    let s1 := { s with plugin_ref_count := s.plugin_ref_count - 1 }
    if s1.plugin_ref_count = 0 && s1.ondemand_load_unload then
      if !has_unmananged_instance_been_created then
        let o := unloadLibraryInternal s1
        (o.state, o.unbound)
      else (s1, false)
    else (s1, false)

/-- Application of `N` successive `loadLibrary` calls. -/
def applyLoads (s : PluginLoaderState) : Nat → PluginLoaderState
  | 0 => s
  | n + 1 => applyLoads (loadLibrary s) n

/-- Application of `N` successive `unloadLibrary` calls (dropping the returned
counts). -/
def applyUnloads (s : PluginLoaderState) : Nat → PluginLoaderState
  | 0 => s
  | n + 1 => applyUnloads (unloadLibraryInternal s).state n

/-- Embedding of `MultiLibraryPluginLoader::getAllAvailablePluginLoaders`
(src/multi_library_plugin_loader.cpp, lines 68-75): the loaders of
`active_plugin_loaders_` in map-iteration order. `active_plugin_loaders_` is a
std::map<LibraryPath, PluginLoader *>, modelled as a key-sorted association
list, so iteration follows the lexicographic order of the paths. -/
def getAllAvailablePluginLoaders (active_plugin_loaders : List (String × LoaderId)) :
    List LoaderId :=
  active_plugin_loaders.map Prod.snd

/-- Embedding of `MultiLibraryPluginLoader::loadLibrary`
(src/multi_library_plugin_loader.cpp, lines 82-88): construct and insert a
fresh loader unless the path already has one. `fresh` is the identity of the
newly constructed PluginLoader. -/
def multiLoadLibrary (active_plugin_loaders : List (String × LoaderId))
    (library_path : String) (fresh : LoaderId) : List (String × LoaderId) :=
  if (mapFind library_path active_plugin_loaders).isSome then active_plugin_loaders
  else mapInsert library_path fresh active_plugin_loaders

/-- Loop of `MultiLibraryPluginLoader::getPluginLoaderForClass`
(include/plugin_loader/multi_library_plugin_loader.hpp, lines 329-342): walk
the loaders in map-iteration order (ensuring each is loaded) and return the
first that reports the class available. `isClassAvailable loader name`
abstracts `loader->isClassAvailable<Base>(name)` evaluated after the
ensure-loaded step. -/
def getPluginLoaderForClass (isClassAvailable : LoaderId → String → Bool)
    (class_name : String) : List LoaderId → Option LoaderId
  | [] => none
  | l :: rest =>
    if isClassAvailable l class_name then some l
    else getPluginLoaderForClass isClassAvailable class_name rest

/-- Result of the path-less `MultiLibraryPluginLoader::createInstance`: which
child loader constructed the instance, or CreateClassException. -/
inductive MultiCreateResult
  | createdBy (loader : LoaderId)
  | createClassException
deriving Repr, DecidableEq

/-- Embedding of the path-less `MultiLibraryPluginLoader::createInstance`
(include/plugin_loader/multi_library_plugin_loader.hpp, lines 121-138):
resolve the class to a loader and delegate; throw CreateClassException when no
loader is found. -/
def multiCreateInstance (active_plugin_loaders : List (String × LoaderId))
    (isClassAvailable : LoaderId → String → Bool) (class_name : String) :
    MultiCreateResult :=
  match getPluginLoaderForClass isClassAvailable class_name
      (getAllAvailablePluginLoaders active_plugin_loaders) with
  | none => MultiCreateResult.createClassException
  | some l => MultiCreateResult.createdBy l

/-- Resolution order asserted by the specification (§3 "Multi-Loader",
§4.4): the first library in INSERTION order whose loader reports the class
available. Stated from the spec's words, for comparison with
`multiCreateInstance`. -/
def firstAvailableByInsertionOrder (isClassAvailable : LoaderId → String → Bool)
    (class_name : String) : List (String × LoaderId) → Option LoaderId
  | [] => none
  | (_, l) :: rest =>
    if isClassAvailable l class_name then some l
    else firstAvailableByInsertionOrder isClassAvailable class_name rest

/-- Availability oracle used by the C4 counterexample: every loader exposes
exactly the class "X". -/
def availEveryX : LoaderId → String → Bool := fun _ c => c = "X"

/-- Environment of one OS-shim map attempt: whether dlopen succeeds and what
dlerror would report on failure (null is possible). -/
structure SharedLibraryEnv where
  dlopen_succeeds : Bool
  dlerror : Option String
deriving Repr, DecidableEq

/-- Embedding of `SharedLibrary::load` (src/shared_library_UNIX.cpp, lines
13-33): an already-held handle is an error; otherwise dlopen either yields a
handle or LibraryLoadException is thrown with the dlerror string (falling back
to the path when dlerror is null). -/
def sharedLibraryLoad (handle_loaded : Bool) (path : String)
    (env : SharedLibraryEnv) : Except String Unit :=
  if handle_loaded then Except.error ("Library already loaded: " ++ path)
  else if env.dlopen_succeeds then Except.ok ()
  else
    Except.error ("Could not load library: " ++
      (match env.dlerror with
       | some err => err
       | none => path))

/-- Payload of a LibraryLoad failure raised by the loader-level load
operation: the requested library path together with the platform error
reported by the OS shim. -/
structure LibraryLoadPayload where
  library_path : String
  platform_error : String
deriving Repr, DecidableEq

/-- Modelled from the spec: impl::loadLibrary (plugin_loader_core.cpp) is not
under src/. Per §4.1 and §7, when the OS shim cannot map the library the load
operation raises LibraryLoad whose payload includes the requested path and the
platform error string; the platform error is the message built by
`sharedLibraryLoad`. -/
def implLoadLibraryResult (library_path : String) (env : SharedLibraryEnv) :
    Except LibraryLoadPayload Unit :=
  match sharedLibraryLoad false library_path env with
  | Except.ok _ => Except.ok ()
  | Except.error msg =>
    Except.error { library_path := library_path, platform_error := msg }

/-- Embedding of the PluginLoader constructor (src/plugin_loader.cpp, lines
45-58): store the path and mode; unless on-demand mode is enabled, immediately
call `loadLibrary`, propagating a LibraryLoad failure out of the
constructor. -/
def pluginLoaderConstruct (library_path : String) (ondemand_load_unload : Bool)
    (env : SharedLibraryEnv) : Except LibraryLoadPayload PluginLoaderState :=
  let s := initialLoader library_path ondemand_load_unload
  if ondemand_load_unload then Except.ok s
  else
    match implLoadLibraryResult library_path env with
    | Except.ok _ => Except.ok (loadLibrary s)
    | Except.error e => Except.error e

/-- Erasure of every factory contributed by `library_path`, as spec §4.2
`purge_library` prescribes. -/
def eraseFactoriesForPath (library_path : String)
    (fs : List (String × List (String × AbstractMetaObjectBase))) :
    List (String × List (String × AbstractMetaObjectBase)) :=
  fs.map (fun p =>
    (p.1, p.2.filter (fun q => q.2.associated_library_path ≠ library_path)))

/-- The registry and loader operations that mutate the global registry state,
used to state that the non-pure flag is never reset (C8). -/
inductive RegistryOp
  | register (class_name base_class_name : String)
  | setCurrentlyLoadingLibraryName (library_name : String)
  | setCurrentlyActivePluginLoader (loader : Option LoaderId)
  | mapLibrary (library_path : String)
  | purgeLibrary (library_path : String)

/-- Modelled from the spec (for the operations whose implementation file
plugin_loader_core.cpp is not under src/): `register` is the in-source
`registerPlugin`; the context setters write the current load context (§4.2
enter_load/exit_load); `mapLibrary` records a successful OS-shim map in the
library list (§4.3 load); `purgeLibrary` erases the factories contributed by
the path and drops its record (§4.2 purge_library). None of these operations
writes `false` to the non-pure flag. -/
def applyRegistryOp (g : GlobalState) : RegistryOp → GlobalState
  | RegistryOp.register c b => (registerPlugin g c b).1
  | RegistryOp.setCurrentlyLoadingLibraryName n =>
    { g with currently_loading_library := n }
  | RegistryOp.setCurrentlyActivePluginLoader l =>
    { g with currently_active_loader := l }
  | RegistryOp.mapLibrary path =>
    let count := (mapFind path g.loaded_libraries).getD 0
    { g with loaded_libraries := mapInsert path (count + 1) g.loaded_libraries }
  | RegistryOp.purgeLibrary path =>
    { g with factories := eraseFactoriesForPath path g.factories,
             loaded_libraries := mapErase path g.loaded_libraries }

/-- Application of a sequence of registry operations. -/
def applyRegistryOps (g : GlobalState) : List RegistryOp → GlobalState
  | [] => g
  | op :: rest => applyRegistryOps (applyRegistryOp g op) rest

/-- Concrete loader state used as the C3 witness input. -/
def loaderWithLiveInstance : PluginLoaderState :=
  { ondemand_load_unload := false, library_path := "./libZoo.so",
    load_ref_count := 1, plugin_ref_count := 1 }

/-- Concrete loader state used as the C9 failing input: load count 2, no
outstanding instances. -/
def loaderLoadedTwice : PluginLoaderState :=
  { ondemand_load_unload := false, library_path := "./libZoo.so",
    load_ref_count := 2, plugin_ref_count := 0 }

/-- Concrete registry state used by witnesses: a loader with id 0 is the active
load context for library "./libZoo.so". -/
def zooContext : GlobalState :=
  { GlobalState.initial with
      currently_loading_library := "./libZoo.so",
      currently_active_loader := some 0 }

/-- Registry state after the static initializers of "./libZoo.so" registered
the class Dog for base Animal under loader 0. -/
def zooRegistered : GlobalState :=
  (registerPlugin zooContext "Dog" "Animal").1

-- Helper lemmas about the std::map model

lemma charListLt_irrefl (l : List Char) : charListLt l l = false := by
  induction l with
  | nil => rfl
  | cons a as ih => simp [charListLt, lt_irrefl, ih]

lemma strLt_irrefl (s : String) : strLt s s = false :=
  charListLt_irrefl s.toList

lemma ne_of_strLt {a b : String} (h : strLt a b = true) : a ≠ b := by
  intro heq
  rw [heq, strLt_irrefl] at h
  exact Bool.false_ne_true h

lemma mapFind_mapInsert_self {V : Type} (k : String) (v : V)
    (m : List (String × V)) : mapFind k (mapInsert k v m) = some v := by
  induction m with
  | nil => simp [mapInsert, mapFind]
  | cons hd tl ih =>
    obtain ⟨k2, v2⟩ := hd
    by_cases hlt : strLt k k2 = true
    · simp [mapInsert, hlt, mapFind]
    · by_cases heq : k = k2
      · simp [mapInsert, hlt, heq, mapFind, strLt_irrefl]
      · have hne : k2 ≠ k := fun h => heq h.symm
        simp [mapInsert, hlt, heq, mapFind, hne, ih]

lemma allKeysGt_lt {V : Type} {k p : String} {l : V} {m : List (String × V)}
    (hgt : allKeysGt k m = true) (hmem : (p, l) ∈ m) : strLt k p = true := by
  induction m with
  | nil => simp at hmem
  | cons hd tl ih =>
    obtain ⟨k2, v2⟩ := hd
    simp only [allKeysGt, Bool.and_eq_true] at hgt
    rcases List.mem_cons.mp hmem with h | h
    · simp only [Prod.mk.injEq] at h
      exact h.1 ▸ hgt.1
    · exact ih hgt.2 h

lemma mapFind_of_mem {V : Type} {name : String} {f : V}
    {m : List (String × V)} (hwf : mapWFb m = true) (hmem : (name, f) ∈ m) :
    mapFind name m = some f := by
  induction m with
  | nil => simp at hmem
  | cons hd tl ih =>
    obtain ⟨k, v⟩ := hd
    simp only [mapWFb, Bool.and_eq_true] at hwf
    rcases List.mem_cons.mp hmem with h | h
    · simp only [Prod.mk.injEq] at h
      simp [mapFind, h.1, h.2]
    · have hne : k ≠ name := ne_of_strLt (allKeysGt_lt hwf.1 h)
      simp [mapFind, hne, ih hwf.2 h]

-- Helper lemmas about the loader reference counts

lemma unloadLibraryInternal_plugin_count (s : PluginLoaderState) :
    (unloadLibraryInternal s).state.plugin_ref_count = s.plugin_ref_count := by
  unfold unloadLibraryInternal
  split
  · rfl
  · dsimp only
    split
    · rfl
    · split <;> rfl

lemma unloadLibraryInternal_pos (s : PluginLoaderState)
    (h0 : s.plugin_ref_count = 0) (hc : 0 < s.load_ref_count) :
    (unloadLibraryInternal s).returned = s.load_ref_count - 1 ∧
    ((unloadLibraryInternal s).unbound = true ↔ s.load_ref_count = 1) ∧
    (unloadLibraryInternal s).state.load_ref_count = s.load_ref_count - 1 := by
  unfold unloadLibraryInternal
  have hrefuse : ¬ s.plugin_ref_count > 0 := by omega
  by_cases h1 : s.load_ref_count - 1 = 0
  · simp [hrefuse, h1]
    omega
  · have h2 : ¬ s.load_ref_count - 1 < 0 := by omega
    simp [hrefuse, h1, h2]
    omega

lemma unloadLibraryInternal_zero (s : PluginLoaderState)
    (h0 : s.plugin_ref_count = 0) (hc : s.load_ref_count = 0) :
    (unloadLibraryInternal s).returned = 0 ∧
    (unloadLibraryInternal s).unbound = false ∧
    (unloadLibraryInternal s).state.load_ref_count = 0 := by
  unfold unloadLibraryInternal
  have hrefuse : ¬ s.plugin_ref_count > 0 := by omega
  have h1 : ¬ s.load_ref_count - 1 = 0 := by omega
  have h2 : s.load_ref_count - 1 < 0 := by omega
  simp [hrefuse, h1, h2]

lemma applyLoads_counts (N : Nat) (s : PluginLoaderState) :
    (applyLoads s N).load_ref_count = s.load_ref_count + N ∧
    (applyLoads s N).plugin_ref_count = s.plugin_ref_count := by
  induction N generalizing s with
  | zero => simp [applyLoads]
  | succ n ih =>
    have h := ih (loadLibrary s)
    simp only [applyLoads]
    refine ⟨?_, h.2⟩
    rw [h.1]
    simp only [loadLibrary]
    omega

lemma applyUnloads_counts (k : Nat) (s : PluginLoaderState)
    (h0 : s.plugin_ref_count = 0) (hc : 0 ≤ s.load_ref_count) :
    (applyUnloads s k).load_ref_count = max (s.load_ref_count - k) 0 ∧
    (applyUnloads s k).plugin_ref_count = 0 := by
  induction k generalizing s with
  | zero =>
    simp [applyUnloads]
    omega
  | succ n ih =>
    simp only [applyUnloads]
    have hplug : (unloadLibraryInternal s).state.plugin_ref_count = 0 :=
      (unloadLibraryInternal_plugin_count s).trans h0
    by_cases hpos : 0 < s.load_ref_count
    · have hcount := (unloadLibraryInternal_pos s h0 hpos).2.2
      have := ih (unloadLibraryInternal s).state hplug (by omega)
      rw [hcount] at this
      refine ⟨?_, this.2⟩
      rw [this.1]
      omega
    · have hz : s.load_ref_count = 0 := by omega
      have hcount := (unloadLibraryInternal_zero s h0 hz).2.2
      have := ih (unloadLibraryInternal s).state hplug (by omega)
      rw [hcount] at this
      refine ⟨?_, this.2⟩
      rw [this.1]
      omega

-- Helper lemmas about the non-pure flag

lemma registerPlugin_nonPure (g : GlobalState) (c b : String) :
    (registerPlugin g c b).1.non_pure_opened =
      (decide (g.currently_active_loader = none) || g.non_pure_opened) := by
  by_cases h : g.currently_active_loader = none <;> simp [registerPlugin, h]

lemma applyRegistryOp_nonPure_mono (g : GlobalState) (op : RegistryOp)
    (h : g.non_pure_opened = true) :
    (applyRegistryOp g op).non_pure_opened = true := by
  cases op with
  | register c b => rw [applyRegistryOp, registerPlugin_nonPure, h, Bool.or_true]
  | setCurrentlyLoadingLibraryName n => exact h
  | setCurrentlyActivePluginLoader l => exact h
  | mapLibrary p => exact h
  | purgeLibrary p => exact h

lemma applyRegistryOps_nonPure_mono (ops : List RegistryOp) (g : GlobalState)
    (h : g.non_pure_opened = true) :
    (applyRegistryOps g ops).non_pure_opened = true := by
  induction ops generalizing g with
  | nil => exact h
  | cons op rest ih =>
    exact ih (applyRegistryOp g op) (applyRegistryOp_nonPure_mono g op h)

-- Claim theorems

/-- C3: whenever the outstanding-instance count (plugin_ref_count_) is
positive, unloadLibrary leaves the loader state unchanged, returns the
unchanged local load reference count, and performs no unbinding of the
library. -/
theorem C3_unload_refused_with_outstanding_instances (s : PluginLoaderState)
    (h : 0 < s.plugin_ref_count) :
    unloadLibraryInternal s =
      { state := s, returned := s.load_ref_count, unbound := false } := by
  unfold unloadLibraryInternal
  simp [h]

/-- Witness for C3: a concrete loader holding one live instance. -/
theorem C3_witness :
    0 < loaderWithLiveInstance.plugin_ref_count ∧
    unloadLibraryInternal loaderWithLiveInstance =
      { state := loaderWithLiveInstance, returned := 1, unbound := false } :=
  ⟨by decide,
   C3_unload_refused_with_outstanding_instances loaderWithLiveInstance (by decide)⟩

/-- C10: invoking the managed-instance release callback onPluginDeletion with
a null pointer is a no-op: the outstanding-instance count is untouched and no
on-demand unload is triggered, whatever the loader state and the unmanaged
flag. -/
theorem C10_null_plugin_deletion_is_noop (s : PluginLoaderState)
    (has_unmananged : Bool) :
    onPluginDeletion s none has_unmananged = (s, false) :=
  rfl

/-- C6: registerPlugin never fails on a duplicate (base, class) entry: it
overwrites the existing binding so the map afterwards yields the newly created
factory, and the collision warning fires exactly when an entry already
existed. -/
theorem C6_register_overwrites_latest_wins (g : GlobalState)
    (class_name base_class_name : String) :
    findFactory (registerPlugin g class_name base_class_name).1
        base_class_name class_name =
      some { class_name := class_name, base_class_name := base_class_name,
             owners := [g.currently_active_loader],
             associated_library_path := g.currently_loading_library } ∧
    ((registerPlugin g class_name base_class_name).2 = true ↔
      (findFactory g base_class_name class_name).isSome = true) := by
  constructor
  · by_cases h : g.currently_active_loader = none <;>
      simp [registerPlugin, h, findFactory, mapFind_mapInsert_self]
  · by_cases h : g.currently_active_loader = none <;>
      simp [registerPlugin, h, findFactory]

/-- C9: the claim (and the destructor's own doc comment "All libraries opened
by this PluginLoader are unloaded automatically") requires the destructor to
unload until the load count reaches zero; the destructor body performs a
single unloadLibrary call, so a loader loaded twice with no outstanding
instances is left with load count 1 and the library still bound. -/
theorem C9_destructor_single_unload_leaves_library_bound :
    (pluginLoaderDestructor loaderLoadedTwice).state.load_ref_count = 1 ∧
    (pluginLoaderDestructor loaderLoadedTwice).unbound = false := by
  decide

/-- C7: when the OS shim cannot map the library (dlopen fails and dlerror
reports a platform error string), constructing a non-lazy PluginLoader fails
with a LibraryLoad error whose payload carries the requested library path and
a message containing the platform error string. -/
theorem C7_construct_failure_payload_has_path_and_error (path err : String)
    (env : SharedLibraryEnv) (hfail : env.dlopen_succeeds = false)
    (herr : env.dlerror = some err) :
    ∃ payload, pluginLoaderConstruct path false env = Except.error payload ∧
      payload.library_path = path ∧
      ∃ pre, payload.platform_error = pre ++ err := by
  refine ⟨{ library_path := path,
            platform_error := "Could not load library: " ++ err }, ?_, rfl,
          "Could not load library: ", rfl⟩
  simp [pluginLoaderConstruct, implLoadLibraryResult, sharedLibraryLoad,
    hfail, herr]

/-- Witness for C7: a nonexistent library path with a concrete dlerror. -/
theorem C7_witness :
    ({ dlopen_succeeds := false,
       dlerror := some "No such file or directory" } : SharedLibraryEnv).dlopen_succeeds = false ∧
    ∃ payload,
      pluginLoaderConstruct "./does-not-exist" false
        { dlopen_succeeds := false, dlerror := some "No such file or directory" } =
          Except.error payload ∧
      payload.library_path = "./does-not-exist" ∧
      ∃ pre, payload.platform_error = pre ++ "No such file or directory" :=
  ⟨rfl,
   C7_construct_failure_payload_has_path_and_error "./does-not-exist"
     "No such file or directory"
     { dlopen_succeeds := false, dlerror := some "No such file or directory" }
     rfl rfl⟩

/-- C4 counterexample: the claim predicts resolution in insertion order, but
`active_plugin_loaders_` is a std::map keyed by library path, so the walk is
in lexicographic path order. Loading "libB" (loader 0) then "libA" (loader 1),
with class "X" available in both, the path-less create constructs through
loader 1 (of "libA", lexicographically first) while the first loader in
insertion order exposing "X" is loader 0 (of "libB"). -/
theorem C4_counterexample_insertion_order :
    multiCreateInstance
        (multiLoadLibrary (multiLoadLibrary [] "libB" 0) "libA" 1)
        availEveryX "X" = MultiCreateResult.createdBy 1 ∧
    firstAvailableByInsertionOrder availEveryX "X" [("libB", 0), ("libA", 1)] =
      some 0 ∧
    MultiCreateResult.createdBy 1 ≠ MultiCreateResult.createdBy 0 := by
  decide

/-- C8: a registration performed while no PluginLoader is the currently active
loader sets the process-wide non-pure-library flag, and no sequence of
subsequent registry or loader operations ever resets it. -/
theorem C8_non_pure_flag_is_sticky (g : GlobalState) (class_name base_class_name : String)
    (ops : List RegistryOp) (h : g.currently_active_loader = none) :
    (applyRegistryOps (registerPlugin g class_name base_class_name).1 ops).non_pure_opened = true := by
  apply applyRegistryOps_nonPure_mono
  rw [registerPlugin_nonPure, h]
  simp

/-- Witness for C8: a registration in the fresh process with no active loader,
followed by a purge, a context change and another registration. -/
theorem C8_witness :
    GlobalState.initial.currently_active_loader = none ∧
    (applyRegistryOps (registerPlugin GlobalState.initial "Dog" "Animal").1
      [RegistryOp.purgeLibrary "./libZoo.so",
       RegistryOp.setCurrentlyActivePluginLoader (some 1),
       RegistryOp.register "Cat" "Animal"]).non_pure_opened = true :=
  ⟨rfl,
   C8_non_pure_flag_is_sticky GlobalState.initial "Dog" "Animal"
     [RegistryOp.purgeLibrary "./libZoo.so",
      RegistryOp.setCurrentlyActivePluginLoader (some 1),
      RegistryOp.register "Cat" "Animal"] rfl⟩

/-- C2: starting from a fresh loader with no outstanding instances, after `N`
loadLibrary calls the local load reference count is `N`; the `(k+1)`-th of the
subsequent unloadLibrary calls (`k < N`) decrements the count and returns
`N - (k+1)`, unbinding the library exactly when the count reaches zero (the
`N`-th call); every further unload call is clamped, returning 0 without
unbinding. -/
theorem C2_load_count_symmetry (path : String) (ondemand : Bool) (N k : Nat)
    (hN : 1 ≤ N) :
    (applyLoads (initialLoader path ondemand) N).load_ref_count = N ∧
    (k < N →
      (unloadLibraryInternal
        (applyUnloads (applyLoads (initialLoader path ondemand) N) k)).returned =
          (N : Int) - (k + 1) ∧
      ((unloadLibraryInternal
        (applyUnloads (applyLoads (initialLoader path ondemand) N) k)).unbound = true ↔
          k + 1 = N)) ∧
    (N ≤ k →
      (unloadLibraryInternal
        (applyUnloads (applyLoads (initialLoader path ondemand) N) k)).returned = 0 ∧
      (unloadLibraryInternal
        (applyUnloads (applyLoads (initialLoader path ondemand) N) k)).unbound = false) := by
  have hload := applyLoads_counts N (initialLoader path ondemand)
  have h1 : (applyLoads (initialLoader path ondemand) N).load_ref_count = N := by
    rw [hload.1]
    simp [initialLoader]
  have h0 : (applyLoads (initialLoader path ondemand) N).plugin_ref_count = 0 := by
    rw [hload.2]
    rfl
  have hun := applyUnloads_counts k (applyLoads (initialLoader path ondemand) N) h0
    (by rw [h1]; positivity)
  refine ⟨h1, ?_, ?_⟩
  · intro hk
    have hcnt : (applyUnloads (applyLoads (initialLoader path ondemand) N) k).load_ref_count =
        (N : Int) - k := by
      rw [hun.1, h1]
      omega
    have hpos : 0 < (applyUnloads (applyLoads (initialLoader path ondemand) N) k).load_ref_count := by
      rw [hcnt]
      omega
    have hout := unloadLibraryInternal_pos _ hun.2 hpos
    refine ⟨?_, ?_⟩
    · rw [hout.1, hcnt]
      ring
    · rw [hout.2.1, hcnt]
      omega
  · intro hk
    have hz : (applyUnloads (applyLoads (initialLoader path ondemand) N) k).load_ref_count = 0 := by
      rw [hun.1, h1]
      omega
    have hout := unloadLibraryInternal_zero _ hun.2 hz
    exact ⟨hout.1, hout.2.1⟩

/-- Witness for C2: three loads followed by a third, unbinding unload. -/
theorem C2_witness :
    1 ≤ 3 ∧
    ((applyLoads (initialLoader "./libZoo.so" false) 3).load_ref_count = 3 ∧
    (2 < 3 →
      (unloadLibraryInternal
        (applyUnloads (applyLoads (initialLoader "./libZoo.so" false) 3) 2)).returned =
          (3 : Int) - (2 + 1) ∧
      ((unloadLibraryInternal
        (applyUnloads (applyLoads (initialLoader "./libZoo.so" false) 3) 2)).unbound = true ↔
          2 + 1 = 3)) ∧
    (3 ≤ 2 →
      (unloadLibraryInternal
        (applyUnloads (applyLoads (initialLoader "./libZoo.so" false) 3) 2)).returned = 0 ∧
      (unloadLibraryInternal
        (applyUnloads (applyLoads (initialLoader "./libZoo.so" false) 3) 2)).unbound = false)) :=
  ⟨by decide, C2_load_count_symmetry "./libZoo.so" false 3 2 (by decide)⟩

lemma getAvailableClassesAux_mem_fst {loader : Option LoaderId} {name : String}
    {fm : List (String × AbstractMetaObjectBase)}
    (h : name ∈ (getAvailableClassesAux loader fm).1) :
    ∃ f, (name, f) ∈ fm ∧ f.isOwnedBy loader = true := by
  induction fm with
  | nil => simp [getAvailableClassesAux] at h
  | cons hd tl ih =>
    obtain ⟨nm, fac⟩ := hd
    by_cases h1 : fac.isOwnedBy loader = true
    · simp only [getAvailableClassesAux, h1, if_true] at h
      rcases List.mem_cons.mp h with h | h
      · subst h
        exact ⟨fac, List.mem_cons_self _ _, h1⟩
      · obtain ⟨f, hf, hown⟩ := ih h
        exact ⟨f, List.mem_cons_of_mem _ hf, hown⟩
    · by_cases h2 : fac.isOwnedBy none = true
      · simp only [getAvailableClassesAux, h1, h2, if_true, if_false] at h
        obtain ⟨f, hf, hown⟩ := ih h
        exact ⟨f, List.mem_cons_of_mem _ hf, hown⟩
      · simp only [getAvailableClassesAux, h1, h2, if_false] at h
        obtain ⟨f, hf, hown⟩ := ih h
        exact ⟨f, List.mem_cons_of_mem _ hf, hown⟩

lemma getAvailableClassesAux_mem_snd {loader : Option LoaderId} {name : String}
    {fm : List (String × AbstractMetaObjectBase)}
    (h : name ∈ (getAvailableClassesAux loader fm).2) :
    ∃ f, (name, f) ∈ fm ∧ f.isOwnedBy none = true := by
  induction fm with
  | nil => simp [getAvailableClassesAux] at h
  | cons hd tl ih =>
    obtain ⟨nm, fac⟩ := hd
    by_cases h1 : fac.isOwnedBy loader = true
    · simp only [getAvailableClassesAux, h1, if_true] at h
      obtain ⟨f, hf, hown⟩ := ih h
      exact ⟨f, List.mem_cons_of_mem _ hf, hown⟩
    · by_cases h2 : fac.isOwnedBy none = true
      · simp only [getAvailableClassesAux, h1, h2, if_true, if_false] at h
        rcases List.mem_cons.mp h with h | h
        · subst h
          exact ⟨fac, List.mem_cons_self _ _, h2⟩
        · obtain ⟨f, hf, hown⟩ := ih h
          exact ⟨f, List.mem_cons_of_mem _ hf, hown⟩
      · simp only [getAvailableClassesAux, h1, h2, if_false] at h
        obtain ⟨f, hf, hown⟩ := ih h
        exact ⟨f, List.mem_cons_of_mem _ hf, hown⟩

/-- C1: every class name listed by getAvailableClasses for a loader (names
owned by that loader followed by ownerless names) can be instantiated by
createInstance without CreateClassException, as long as the registry is
unchanged in between. -/
theorem C1_available_classes_instantiable (g : GlobalState) (base : String)
    (loader : Option LoaderId) (name : String)
    (hwf : mapWFb ((mapFind base g.factories).getD []) = true)
    (hmem : name ∈ getAvailableClasses g base loader) :
    ∃ advisory, createInstance g base name loader = CreateResult.created advisory := by
  unfold getAvailableClasses at hmem
  rcases List.mem_append.mp hmem with h | h
  · obtain ⟨f, hf, hown⟩ := getAvailableClassesAux_mem_fst h
    have hfind : mapFind name ((mapFind base g.factories).getD []) = some f :=
      mapFind_of_mem hwf hf
    exact ⟨false, by simp [createInstance, findFactory, hfind, hown]⟩
  · obtain ⟨f, hf, hown⟩ := getAvailableClassesAux_mem_snd h
    have hfind : mapFind name ((mapFind base g.factories).getD []) = some f :=
      mapFind_of_mem hwf hf
    by_cases howner : f.isOwnedBy loader = true
    · exact ⟨false, by simp [createInstance, findFactory, hfind, howner]⟩
    · exact ⟨true, by simp [createInstance, findFactory, hfind, howner, hown]⟩

/-- Witness for C1: in the registry where loader 0 registered Dog for Animal,
Dog is listed as available and creatable. -/
theorem C1_witness :
    mapWFb ((mapFind "Animal" zooRegistered.factories).getD []) = true ∧
    "Dog" ∈ getAvailableClasses zooRegistered "Animal" (some 0) ∧
    ∃ advisory,
      createInstance zooRegistered "Animal" "Dog" (some 0) =
        CreateResult.created advisory :=
  ⟨by decide, by decide,
   C1_available_classes_instantiable zooRegistered "Animal" (some 0) "Dog"
     (by decide) (by decide)⟩

/-- C5: for factories as registerPlugin creates them (exactly one owner entry,
possibly the null loader), createInstance constructs when the factory is owned
by the requesting loader, constructs with only an advisory when the factory
has no owner, and throws CreateClassException exactly when no factory exists
for the name or the factory's owner is some loader other than the requester. -/
theorem C5_create_instance_trichotomy (g : GlobalState) (base name : String)
    (loader : LoaderId)
    (hsingle : ∀ f, findFactory g base name = some f → ∃ o, f.owners = [o]) :
    (∀ f, findFactory g base name = some f → f.owners = [some loader] →
      createInstance g base name (some loader) = CreateResult.created false) ∧
    (∀ f, findFactory g base name = some f → f.owners = [none] →
      createInstance g base name (some loader) = CreateResult.created true) ∧
    (createInstance g base name (some loader) = CreateResult.createClassException ↔
      findFactory g base name = none ∨
      ∃ f other, findFactory g base name = some f ∧ f.owners = [some other] ∧
        other ≠ loader) := by
  cases hf : findFactory g base name with
  | none =>
    refine ⟨?_, ?_, ?_⟩
    · intro f h
      cases h
    · intro f h
      cases h
    · constructor
      · intro _
        exact Or.inl rfl
      · intro _
        simp [createInstance, hf]
  | some f =>
    obtain ⟨o, ho⟩ := hsingle f hf
    have huniq : ∀ f2 : AbstractMetaObjectBase, some f = some f2 → f2 = f :=
      fun f2 h2 => (Option.some.inj h2).symm
    match o, ho with
    | none, ho =>
      have h1 : f.isOwnedBy (some loader) = false := by
        simp [AbstractMetaObjectBase.isOwnedBy, ho]
      have h2 : f.isOwnedBy none = true := by
        simp [AbstractMetaObjectBase.isOwnedBy, ho]
      have hres : createInstance g base name (some loader) = CreateResult.created true := by
        simp [createInstance, hf, h1, h2]
      refine ⟨?_, ?_, ?_⟩
      · intro f2 hf2 howners
        rw [huniq f2 hf2] at howners
        rw [howners] at ho
        cases ho
      · intro f2 hf2 _
        exact hres
      · rw [hres]
        constructor
        · intro h
          cases h
        · rintro (h | ⟨f2, other, hf2, howners, _⟩)
          · cases h
          · rw [huniq f2 hf2] at howners
            rw [howners] at ho
            cases ho
    | some l2, ho =>
      by_cases hl : l2 = loader
      · subst hl
        have h1 : f.isOwnedBy (some l2) = true := by
          simp [AbstractMetaObjectBase.isOwnedBy, ho]
        have hres : createInstance g base name (some l2) = CreateResult.created false := by
          simp [createInstance, hf, h1]
        refine ⟨?_, ?_, ?_⟩
        · intro f2 hf2 _
          exact hres
        · intro f2 hf2 howners
          rw [huniq f2 hf2] at howners
          rw [howners] at ho
          cases ho
        · rw [hres]
          constructor
          · intro h
            cases h
          · rintro (h | ⟨f2, other, hf2, howners, hne⟩)
            · cases h
            · rw [huniq f2 hf2] at howners
              rw [howners] at ho
              have : some other = some l2 := List.head_eq_of_cons_eq ho
              exact absurd (Option.some.inj this) hne
      · have h1 : f.isOwnedBy (some loader) = false := by
          simp [AbstractMetaObjectBase.isOwnedBy, ho]
          exact fun hx => hl hx.symm
        have h2 : f.isOwnedBy none = false := by
          simp [AbstractMetaObjectBase.isOwnedBy, ho]
        have hres : createInstance g base name (some loader) =
            CreateResult.createClassException := by
          simp [createInstance, hf, h1, h2]
        refine ⟨?_, ?_, ?_⟩
        · intro f2 hf2 howners
          rw [huniq f2 hf2] at howners
          rw [howners] at ho
          have : some loader = some l2 := List.head_eq_of_cons_eq ho
          exact absurd (Option.some.inj this) (fun hx => hl hx.symm)
        · intro f2 hf2 howners
          rw [huniq f2 hf2] at howners
          rw [howners] at ho
          cases ho
        · rw [hres]
          exact ⟨fun _ => Or.inr ⟨f, l2, rfl, ho, hl⟩, fun _ => rfl⟩

/-- Witness for C5: the Dog factory owned by loader 0 is created by loader 0
without advisory, and the trichotomy holds at this concrete registry. -/
theorem C5_witness :
    (∀ f, findFactory zooRegistered "Animal" "Dog" = some f → ∃ o, f.owners = [o]) ∧
    ((∀ f, findFactory zooRegistered "Animal" "Dog" = some f →
        f.owners = [some 0] →
      createInstance zooRegistered "Animal" "Dog" (some 0) =
        CreateResult.created false) ∧
    (∀ f, findFactory zooRegistered "Animal" "Dog" = some f → f.owners = [none] →
      createInstance zooRegistered "Animal" "Dog" (some 0) =
        CreateResult.created true) ∧
    (createInstance zooRegistered "Animal" "Dog" (some 0) =
        CreateResult.createClassException ↔
      findFactory zooRegistered "Animal" "Dog" = none ∨
      ∃ f other, findFactory zooRegistered "Animal" "Dog" = some f ∧
        f.owners = [some other] ∧ other ≠ 0)) := by
  have hsingle : ∀ f, findFactory zooRegistered "Animal" "Dog" = some f →
      ∃ o, f.owners = [o] := by
    intro f hf
    have hval : findFactory zooRegistered "Animal" "Dog" =
        some { class_name := "Dog", base_class_name := "Animal",
               owners := [some 0], associated_library_path := "./libZoo.so" } := by
      decide
    rw [hval] at hf
    rw [← Option.some.inj hf]
    exact ⟨some 0, rfl⟩
  exact ⟨hsingle, C5_create_instance_trichotomy zooRegistered "Animal" "Dog" 0 hsingle⟩

/-- C4 (amended): the path-less create of MultiLibraryPluginLoader walks
`active_plugin_loaders_` in std::map iteration order, i.e. lexicographic order
of library paths: it raises CreateClassException exactly when no registered
loader reports the class available, and any instance it constructs comes from
the loader whose library path is lexicographically least among those reporting
the class available. -/
theorem C4_lexicographic_resolution (m : List (String × LoaderId))
    (isClassAvailable : LoaderId → String → Bool) (class_name : String)
    (hwf : mapWFb m = true) :
    (multiCreateInstance m isClassAvailable class_name =
        MultiCreateResult.createClassException ↔
      ∀ p l, (p, l) ∈ m → isClassAvailable l class_name = false) ∧
    (∀ l, multiCreateInstance m isClassAvailable class_name =
        MultiCreateResult.createdBy l →
      ∃ p, (p, l) ∈ m ∧ isClassAvailable l class_name = true ∧
        ∀ p2 l2, (p2, l2) ∈ m → isClassAvailable l2 class_name = true →
          p2 = p ∨ strLt p p2 = true) := by
  induction m with
  | nil =>
    constructor
    · simp [multiCreateInstance, getAllAvailablePluginLoaders,
        getPluginLoaderForClass]
    · intro l h
      simp [multiCreateInstance, getAllAvailablePluginLoaders,
        getPluginLoaderForClass] at h
  | cons hd tl ih =>
    obtain ⟨p0, l0⟩ := hd
    simp only [mapWFb, Bool.and_eq_true] at hwf
    have ihtl := ih hwf.2
    by_cases ha : isClassAvailable l0 class_name = true
    · have hres : multiCreateInstance ((p0, l0) :: tl) isClassAvailable class_name =
          MultiCreateResult.createdBy l0 := by
        simp [multiCreateInstance, getAllAvailablePluginLoaders,
          getPluginLoaderForClass, ha]
      constructor
      · rw [hres]
        constructor
        · intro h
          cases h
        · intro hall
          have := hall p0 l0 (List.mem_cons_self _ _)
          rw [ha] at this
          cases this
      · intro l h
        rw [hres] at h
        have hl : l = l0 := (MultiCreateResult.createdBy.injEq .. ▸ h).symm ▸ rfl
        cases h
        refine ⟨p0, List.mem_cons_self _ _, ha, ?_⟩
        intro p2 l2 hmem _
        rcases List.mem_cons.mp hmem with h2 | h2
        · exact Or.inl (congrArg Prod.fst h2)
        · exact Or.inr (allKeysGt_lt hwf.1 h2)
    · have hstep : multiCreateInstance ((p0, l0) :: tl) isClassAvailable class_name =
          multiCreateInstance tl isClassAvailable class_name := by
        simp [multiCreateInstance, getAllAvailablePluginLoaders,
          getPluginLoaderForClass, ha]
      rw [hstep]
      have havail0 : isClassAvailable l0 class_name = false :=
        Bool.eq_false_iff.mpr ha
      constructor
      · rw [ihtl.1]
        constructor
        · intro hall p l hmem
          rcases List.mem_cons.mp hmem with h2 | h2
          · simp only [Prod.mk.injEq] at h2
            rw [h2.2]
            exact havail0
          · exact hall p l h2
        · intro hall p l hmem
          exact hall p l (List.mem_cons_of_mem _ hmem)
      · intro l h
        obtain ⟨p, hp, hav, hmin⟩ := ihtl.2 l h
        refine ⟨p, List.mem_cons_of_mem _ hp, hav, ?_⟩
        intro p2 l2 hmem hav2
        rcases List.mem_cons.mp hmem with h2 | h2
        · simp only [Prod.mk.injEq] at h2
          rw [h2.2] at hav2
          rw [havail0] at hav2
          cases hav2
        · exact hmin p2 l2 h2 hav2

/-- Witness for C4 (amended): the two-library map of the counterexample
scenario, with class "X" exposed by both loaders. -/
theorem C4_lexicographic_resolution_witness :
    mapWFb [("libA", 1), ("libB", 0)] = true ∧
    ((multiCreateInstance [("libA", 1), ("libB", 0)] availEveryX "X" =
        MultiCreateResult.createClassException ↔
      ∀ p l, (p, l) ∈ [("libA", 1), ("libB", 0)] → availEveryX l "X" = false) ∧
    (∀ l, multiCreateInstance [("libA", 1), ("libB", 0)] availEveryX "X" =
        MultiCreateResult.createdBy l →
      ∃ p, (p, l) ∈ [("libA", 1), ("libB", 0)] ∧ availEveryX l "X" = true ∧
        ∀ p2 l2, (p2, l2) ∈ [("libA", 1), ("libB", 0)] →
          availEveryX l2 "X" = true → p2 = p ∨ strLt p p2 = true)) :=
  ⟨by decide,
   C4_lexicographic_resolution [("libA", 1), ("libB", 0)] availEveryX "X" (by decide)⟩

end PluginLoaderModel
